import Mathlib

/-!
Verification of the bitwise-AND operation set for the fixed-width signed
multi-limb integer type of crypto-bigint (src/int/bit_and.rs).

The collaborators of that file (the limb type, the unsigned multi-limb
integer with its AND primitives, the constant-time optional container and
the wrapping newtype's field layout) are not part of the source under
verification; they are modelled from the specification's interface
description.  Every operation of src/int/bit_and.rs itself is translated
impl-item by impl-item.
-/

namespace CryptoBigint

/-- Modelled from the spec: a Limb is "a single fixed-width unsigned machine
word"; the missing source is the library's limb type.  Its numeric value is
carried as a natural number; bitwise AND never enlarges either operand, so
every operation below preserves any fixed word-width bound. -/
@[ext]
structure Limb where
  value : Nat
deriving DecidableEq

/-- Modelled from the spec: word-level bitwise AND of two limbs, the
primitive from which the unsigned collaborator's AND is built. -/
def Limb.land (a b : Limb) : Limb :=
  Limb.mk (Nat.land a.value b.value)

/-- Modelled from the spec: the unsigned multi-limb integer is "an ordered
sequence of Limb values of fixed length LIMBS", least-significant limb at
index 0; the missing source is the library's unsigned type.  The
fixed-length sequence is represented as a function from limb positions. -/
@[ext]
structure Uint (LIMBS : Nat) where
  limbs : Fin LIMBS → Limb

variable {LIMBS : Nat}

/-- Modelled from the spec: the unsigned collaborator's bitwise AND
(uint_and), combining the two limb sequences limb-wise and preserving the
fixed limb count. -/
def Uint.bitand (a b : Uint LIMBS) : Uint LIMBS :=
  Uint.mk (fun i => Limb.land (a.limbs i) (b.limbs i))

/-- Modelled from the spec: the unsigned collaborator's broadcast AND
(uint_and_limb), ANDing every limb of the sequence against the same single
limb value. -/
def Uint.bitand_limb (a : Uint LIMBS) (rhs : Limb) : Uint LIMBS :=
  Uint.mk (fun i => Limb.land (a.limbs i) rhs)

/-- Modelled from the spec: the constant-time optional "pairs a value of
type T with a boolean is-present flag"; the missing source is the library's
ConstCtOption type. -/
structure ConstCtOption (T : Type) where
  value : T
  is_some : Bool

/-- Modelled from the spec: the constructor that builds a "present"
instance without branching on the wrapped value. -/
def ConstCtOption.some {T : Type} (v : T) : ConstCtOption T :=
  ConstCtOption.mk v true

/-- The fixed-width signed integer: a newtype wrapping exactly one unsigned
multi-limb value (the source's field .0, called toUint here), whose bit
pattern is the two's-complement encoding of the signed value. -/
@[ext]
structure Int (LIMBS : Nat) where
  toUint : Uint LIMBS

/-- Int::bitand (src/int/bit_and.rs lines 10-12): computes bitwise a AND b
as Self(Uint::bitand(&self.0, &rhs.0)). -/
def Int.bitand (self rhs : Int LIMBS) : Int LIMBS :=
  Int.mk (Uint.bitand self.toUint rhs.toUint)

/-- Int::bitand_limb (lines 16-18): AND between self and the given limb,
performed on every limb of self: Self(Uint::bitand_limb(&self.0, rhs)). -/
def Int.bitand_limb (self : Int LIMBS) (rhs : Limb) : Int LIMBS :=
  Int.mk (Uint.bitand_limb self.toUint rhs)

/-- Int::wrapping_and (lines 24-26): self.bitand(rhs). -/
def Int.wrapping_and (self rhs : Int LIMBS) : Int LIMBS :=
  Int.bitand self rhs

/-- Int::checked_and (lines 29-31): ConstCtOption::some(self.bitand(rhs)). -/
def Int.checked_and (self rhs : Int LIMBS) : ConstCtOption (Int LIMBS) :=
  ConstCtOption.some (Int.bitand self rhs)

/-- Operator impl BitAnd for Int, value AND value (lines 34-40):
self.bitand(&rhs), resolving to the inherent method. -/
def Int.opBitand_vv (self rhs : Int LIMBS) : Int LIMBS :=
  Int.bitand self rhs

/-- Operator impl BitAnd for Int, value AND reference (lines 42-49):
(&self).bitand(rhs), resolving to the inherent method. -/
def Int.opBitand_vr (self rhs : Int LIMBS) : Int LIMBS :=
  Int.bitand self rhs

/-- Operator impl BitAnd for Int, reference AND value (lines 51-57):
self.bitand(&rhs), resolving to the inherent method. -/
def Int.opBitand_rv (self rhs : Int LIMBS) : Int LIMBS :=
  Int.bitand self rhs

/-- Operator impl BitAnd for Int, reference AND reference (lines 59-65):
self.bitand(rhs), resolving to the inherent method. -/
def Int.opBitand_rr (self rhs : Int LIMBS) : Int LIMBS :=
  Int.bitand self rhs

/-- BitAndAssign for Int by value (lines 67-72): the mutation
self = self AND other; modelled as returning the value stored back into
self, computed by the value-value operator impl. -/
def Int.bitand_assign_v (self other : Int LIMBS) : Int LIMBS :=
  Int.opBitand_vv self other

/-- BitAndAssign for Int by reference (lines 74-79): self = self AND other
with other taken by reference, computed by the value-reference operator
impl; modelled as returning the value stored back into self. -/
def Int.bitand_assign_r (self other : Int LIMBS) : Int LIMBS :=
  Int.opBitand_vr self other

/-- The wrapping-policy newtype: wraps exactly one value (the source's
field .0, called val here) and carries no additional state. -/
@[ext]
structure Wrapping (T : Type) where
  val : T

/-- Operator impl BitAnd for Wrapping of Int, value AND value (lines
81-87): Wrapping(self.0.bitand(&rhs.0)). -/
def Wrapping.opBitand_vv (self rhs : Wrapping (Int LIMBS)) : Wrapping (Int LIMBS) :=
  Wrapping.mk (Int.bitand self.val rhs.val)

/-- Operator impl BitAnd for Wrapping of Int, value AND reference (lines
89-95): Wrapping(self.0.bitand(&rhs.0)). -/
def Wrapping.opBitand_vr (self rhs : Wrapping (Int LIMBS)) : Wrapping (Int LIMBS) :=
  Wrapping.mk (Int.bitand self.val rhs.val)

/-- Operator impl BitAnd for Wrapping of Int, reference AND value (lines
97-103): Wrapping(self.0.bitand(&rhs.0)). -/
def Wrapping.opBitand_rv (self rhs : Wrapping (Int LIMBS)) : Wrapping (Int LIMBS) :=
  Wrapping.mk (Int.bitand self.val rhs.val)

/-- Operator impl BitAnd for Wrapping of Int, reference AND reference
(lines 105-111): Wrapping(self.0.bitand(&rhs.0)). -/
def Wrapping.opBitand_rr (self rhs : Wrapping (Int LIMBS)) : Wrapping (Int LIMBS) :=
  Wrapping.mk (Int.bitand self.val rhs.val)

/-- BitAndAssign for Wrapping of Int by value (lines 113-118):
self = self AND other via the value-value operator impl; modelled as
returning the value stored back into self. -/
def Wrapping.bitand_assign_v (self other : Wrapping (Int LIMBS)) : Wrapping (Int LIMBS) :=
  Wrapping.opBitand_vv self other

/-- BitAndAssign for Wrapping of Int by reference (lines 120-125):
self = self AND other via the value-reference operator impl; modelled as
returning the value stored back into self. -/
def Wrapping.bitand_assign_r (self other : Wrapping (Int LIMBS)) : Wrapping (Int LIMBS) :=
  Wrapping.opBitand_vr self other

/-- The four named AND entry points of src/int/bit_and.rs. -/
inductive AndEntryPoint
  | bitand
  | bitand_limb
  | wrapping_and
  | checked_and
deriving DecidableEq

/-- Which type carries an entry point: the bare signed type or its
wrapping wrapper. -/
inductive Carrier
  | int
  | wrappingInt
deriving DecidableEq

/-- How an entry point is reached: inherent method call, native operator
at one of the four value/reference operand combinations, or compound
assignment with the right operand by value or by reference. -/
inductive AccessForm
  | method
  | operatorVV
  | operatorVR
  | operatorRV
  | operatorRR
  | assignByValue
  | assignByRef
deriving DecidableEq

/-- The API surface of src/int/bit_and.rs, one entry per impl item: the
four inherent methods on Int (lines 7-32), the four BitAnd operator impls
and two BitAndAssign impls on Int (lines 34-79), and the four BitAnd
operator impls and two BitAndAssign impls on Wrapping of Int (lines
81-125). -/
def providedEntries : List (AndEntryPoint × Carrier × AccessForm) :=
  [ (AndEntryPoint.bitand, Carrier.int, AccessForm.method),
    (AndEntryPoint.bitand_limb, Carrier.int, AccessForm.method),
    (AndEntryPoint.wrapping_and, Carrier.int, AccessForm.method),
    (AndEntryPoint.checked_and, Carrier.int, AccessForm.method),
    (AndEntryPoint.bitand, Carrier.int, AccessForm.operatorVV),
    (AndEntryPoint.bitand, Carrier.int, AccessForm.operatorVR),
    (AndEntryPoint.bitand, Carrier.int, AccessForm.operatorRV),
    (AndEntryPoint.bitand, Carrier.int, AccessForm.operatorRR),
    (AndEntryPoint.bitand, Carrier.int, AccessForm.assignByValue),
    (AndEntryPoint.bitand, Carrier.int, AccessForm.assignByRef),
    (AndEntryPoint.bitand, Carrier.wrappingInt, AccessForm.operatorVV),
    (AndEntryPoint.bitand, Carrier.wrappingInt, AccessForm.operatorVR),
    (AndEntryPoint.bitand, Carrier.wrappingInt, AccessForm.operatorRV),
    (AndEntryPoint.bitand, Carrier.wrappingInt, AccessForm.operatorRR),
    (AndEntryPoint.bitand, Carrier.wrappingInt, AccessForm.assignByValue),
    (AndEntryPoint.bitand, Carrier.wrappingInt, AccessForm.assignByRef) ]

/-- A concrete two-limb signed integer used to instantiate the broadcast
consistency theorem. -/
def xBroadcast : Int 2 :=
  Int.mk (Uint.mk (fun i => if i = 0 then Limb.mk 13 else Limb.mk 6))

/-- A concrete mask limb for the broadcast consistency instance. -/
def mBroadcast : Limb :=
  Limb.mk 5

/-- The concrete two-limb signed integer whose every limb equals
mBroadcast. -/
def yBroadcast : Int 2 :=
  Int.mk (Uint.mk (fun _ => mBroadcast))

/-- Claim C1: for every pair of signed integers a and b of the same LIMBS
width, Int::bitand returns the Int wrapping Uint::bitand applied to the
two wrapped Uint values, i.e. the limb-wise logical AND of a and b. -/
theorem bitand_wraps_uint_and (LIMBS : Nat) (a b : Int LIMBS) :
    Int.bitand a b = Int.mk (Uint.bitand a.toUint b.toUint) ∧
    ∀ i, ((Int.bitand a b).toUint.limbs i).value =
      Nat.land (a.toUint.limbs i).value (b.toUint.limbs i).value :=
  ⟨rfl, fun _ => rfl⟩

/-- Claim C2: each of the four native AND operator bindings on Int returns
the same result as the method Int::bitand, and after compound assignment
(right operand by value or by reference) the receiver equals
Int::bitand of its original value and the right operand. -/
theorem int_operator_method_equiv (LIMBS : Nat) (x y : Int LIMBS) :
    Int.opBitand_vv x y = Int.bitand x y ∧
    Int.opBitand_vr x y = Int.bitand x y ∧
    Int.opBitand_rv x y = Int.bitand x y ∧
    Int.opBitand_rr x y = Int.bitand x y ∧
    Int.bitand_assign_v x y = Int.bitand x y ∧
    Int.bitand_assign_r x y = Int.bitand x y :=
  ⟨rfl, rfl, rfl, rfl, rfl, rfl⟩

/-- Claim C3: each AND operator binding on Wrapping of Int unwraps both
operands, delegates to Int::bitand and re-wraps, so unwrapping the result
of any of the four bindings on Wrapping(x) and Wrapping(y) yields exactly
Int::bitand(x, y). -/
theorem wrapping_operator_transparency (LIMBS : Nat) (x y : Int LIMBS) :
    (Wrapping.opBitand_vv (Wrapping.mk x) (Wrapping.mk y)).val = Int.bitand x y ∧
    (Wrapping.opBitand_vr (Wrapping.mk x) (Wrapping.mk y)).val = Int.bitand x y ∧
    (Wrapping.opBitand_rv (Wrapping.mk x) (Wrapping.mk y)).val = Int.bitand x y ∧
    (Wrapping.opBitand_rr (Wrapping.mk x) (Wrapping.mk y)).val = Int.bitand x y :=
  ⟨rfl, rfl, rfl, rfl⟩

/-- Claim C4: checked_and always returns a constant-time optional whose
presence flag is true and whose contained value equals Int::bitand; no
input produces an absent result. -/
theorem checked_and_always_some (LIMBS : Nat) (x y : Int LIMBS) :
    (Int.checked_and x y).is_some = true ∧
    (Int.checked_and x y).value = Int.bitand x y :=
  ⟨rfl, rfl⟩

/-- Claim C5: wrapping_and is a pure identity forward to Int::bitand. -/
theorem wrapping_and_eq_bitand (LIMBS : Nat) (x y : Int LIMBS) :
    Int.wrapping_and x y = Int.bitand x y :=
  rfl

/-- Claim C6: bitand_limb ANDs every limb of x against the single limb m,
and equals bitand of x with any y whose every limb equals m. -/
theorem bitand_limb_broadcast_consistency (LIMBS : Nat) (x : Int LIMBS) (m : Limb)
    (y : Int LIMBS) (hy : ∀ i, y.toUint.limbs i = m) :
    (∀ i, (Int.bitand_limb x m).toUint.limbs i = Limb.land (x.toUint.limbs i) m) ∧
    Int.bitand_limb x m = Int.bitand x y := by
  refine ⟨fun _ => rfl, ?_⟩
  ext i
  simp [Int.bitand_limb, Int.bitand, Uint.bitand_limb, Uint.bitand, hy i]

/-- Witness for claim C6 at a concrete two-limb input. -/
theorem bitand_limb_broadcast_consistency_witness :
    (∀ i : Fin 2, yBroadcast.toUint.limbs i = mBroadcast) ∧
    ((∀ i, (Int.bitand_limb xBroadcast mBroadcast).toUint.limbs i =
        Limb.land (xBroadcast.toUint.limbs i) mBroadcast) ∧
      Int.bitand_limb xBroadcast mBroadcast = Int.bitand xBroadcast yBroadcast) :=
  ⟨fun _ => rfl,
    bitand_limb_broadcast_consistency 2 xBroadcast mBroadcast yBroadcast (fun _ => rfl)⟩

/-- Claim C7 is false as stated: not every AND entry point is available in
every access form on every carrier; the single-limb broadcast bitand_limb
has no native operator binding (here at the value-value operator form on
the bare signed type). -/
theorem and_entry_point_surface_counterexample :
    ¬ ∀ (ep : AndEntryPoint) (c : Carrier) (f : AccessForm),
        (ep, c, f) ∈ providedEntries :=
  fun h =>
    absurd (h AndEntryPoint.bitand_limb Carrier.int AccessForm.operatorVV) (by decide)

/-- Claim C7 amended: the full-width bitand is available through the
native operator and compound assignment in every value/reference operand
combination on both the bare signed type and its wrapping wrapper, while
the inherent method forms (bitand, bitand_limb, wrapping_and, checked_and)
exist exactly on the bare signed type; no other entry-point/carrier/form
combination is provided. -/
theorem and_entry_point_surface_amended :
    ∀ (ep : AndEntryPoint) (c : Carrier) (f : AccessForm),
      ((ep, c, f) ∈ providedEntries ↔
        (ep = AndEntryPoint.bitand ∧ f ≠ AccessForm.method) ∨
        (c = Carrier.int ∧ f = AccessForm.method)) := by
  intro ep c f
  cases ep <;> cases c <;> cases f <;> decide

/-- Claim C8: bitwise AND on Int is commutative. -/
theorem bitand_comm (LIMBS : Nat) (x y : Int LIMBS) :
    Int.bitand x y = Int.bitand y x := by
  ext i
  simp only [Int.bitand, Uint.bitand, Limb.land]
  exact Nat.land_comm _ _

/-- Claim C10: compound assignment on Wrapping of Int (right operand by
value or by reference) replaces the receiver with the wrapping of
Int::bitand of the two unwrapped values, matching the plain operator
result. -/
theorem wrapping_bitand_assign_eq (LIMBS : Nat) (x y : Wrapping (Int LIMBS)) :
    Wrapping.bitand_assign_v x y = Wrapping.mk (Int.bitand x.val y.val) ∧
    Wrapping.bitand_assign_r x y = Wrapping.mk (Int.bitand x.val y.val) ∧
    Wrapping.bitand_assign_v x y = Wrapping.opBitand_vv x y ∧
    Wrapping.bitand_assign_r x y = Wrapping.opBitand_vr x y :=
  ⟨rfl, rfl, rfl, rfl⟩

end CryptoBigint
